import Mathlib

/-!
Formal model of the core of `getinfo.py` (watertap-org/getinfo): the node
taxonomy (`_Node` / `Provider` / `Collector`), the identity resolver
(`get_key` / `get_default_id`), the value normalizer (`get_collectable`),
the population engine (`populate` and its singledispatch branches
`_for_collector` / `_for_provider` / the generic object branch), and the
serialization fallback (`_to_jsonable`) together with the relevant part of
`json.dumps` semantics.

Modelling conventions:
- Python runtime values are the inductive `PValue`; 2-tuples are `vtuple`
  of a two-element `PValues` list; dictionaries are insertion-ordered
  association lists (`PEntries`), matching CPython dict semantics.
- Nodes are `PNode`. The generic `provider` constructor carries the concrete
  class name (used by `get_default_id`), the `_id` field, the `_parent`
  back-reference (stored as a snapshot, which is faithful because the code
  only ever reads `_parent._id` and `get_key(parent)`), and the value or
  exception its `__call__` produces. `InstanceMethod` has a dedicated
  constructor because its `__call__` additionally normalizes the raw method
  result through `get_collectable` (src line 110). The generic `collector`
  constructor carries the class name, `_target`, and the nodes its
  `collect()` enumeration yields; `ModuleFunction` has a dedicated
  constructor because its `collect()` maps `get_collectable` over the items
  its wrapped function produced (src lines 324-329). `bare` stands for a
  `_Node` that is neither a `Provider` nor a `Collector` (for example
  `Result`), which singledispatch sends to the generic branches.
- Exceptions are values `(class name, message)`; a raising computation is
  an `Except` error. The per-provider `try/except Exception` of
  `_for_provider` catches every error produced by `obj.__call__`.
- `populate` mutates its `data` argument in place and returns `None`; the
  model threads the final contents of the caller-visible mapping instead,
  with `none` standing for the `data=None` case in which the caller has
  nothing that could be mutated. Python recursion can diverge (a provider
  may return an ever-growing chain of nodes), so the engine takes a fuel
  parameter; fuel exhaustion is a distinguished error never produced by
  the modelled program paths at sufficient fuel.
- `_to_jsonable` is modelled under Python >= 3.9 semantics, where
  `typing.NamedTuple` is a function rather than a type, so the check
  `isinstance(obj, NamedTuple)` (src line 665) raises `TypeError` for every
  value that reaches it; the branches below that line are unreachable.
  `known_type`, used only for debug display, is not modelled.
-/

namespace Getinfo

/-- Python exception model: class name and message. -/
abbrev PyE := String × String

mutual

/-- A Python runtime value as it can flow through the getinfo engine. -/
inductive PValue : Type where
  | vnone : PValue
  | vbool : Bool → PValue
  | vint : Int → PValue
  | vstr : String → PValue
  | vtuple : PValues → PValue
  | vlist : PValues → PValue
  | vset : PValues → PValue
  | vdict : PEntries → PValue
  | vexc : String → String → PValue
  | vdatetime : String → PValue
  | vpath : String → PValue
  | vcallable : Option String → Option String → Invocation → PValue
  | vnode : PNode → PValue

/-- A list of Python values. -/
inductive PValues : Type where
  | nil : PValues
  | cons : PValue → PValues → PValues

/-- An insertion-ordered Python dict with string keys. -/
inductive PEntries : Type where
  | nil : PEntries
  | cons : String → PValue → PEntries → PEntries

/-- The outcome of a zero-argument Python call: a value or a raised exception. -/
inductive Invocation : Type where
  | ok : PValue → Invocation
  | raises : String → String → Invocation

/-- A `_Node` of the tree: class name, `_id`, `_parent`, plus per-kind data. -/
inductive PNode : Type where
  | provider : String → Option String → Option PNode → Invocation → PNode
  | instanceMethod : Option String → Option PNode → Invocation → PNode
  | collector : String → Option String → Option PNode → Option String → PValues → PNode
  | moduleFunction : Option String → Option PNode → Option String → PValues → PNode
  | bare : Option String → Option PNode → PNode

end

/-- The `_id` attribute of a node. -/
def nodeId : PNode → Option String
  | .provider _ i _ _ => i
  | .instanceMethod i _ _ => i
  | .collector _ i _ _ _ => i
  | .moduleFunction i _ _ _ => i
  | .bare i _ => i

/-- The `_parent` attribute of a node. -/
def nodeParent : PNode → Option PNode
  | .provider _ _ p _ => p
  | .instanceMethod _ p _ => p
  | .collector _ _ p _ _ => p
  | .moduleFunction _ p _ _ => p
  | .bare _ p => p

/-- Assignment to the `_id` attribute. -/
def setId : PNode → Option String → PNode
  | .provider cn _ p b, i => .provider cn i p b
  | .instanceMethod _ p b, i => .instanceMethod i p b
  | .collector cn _ p t ch, i => .collector cn i p t ch
  | .moduleFunction _ p t its, i => .moduleFunction i p t its
  | .bare _ p, i => .bare i p

/-- Assignment to the `_parent` attribute. -/
def setParent : PNode → Option PNode → PNode
  | .provider cn i _ b, p => .provider cn i p b
  | .instanceMethod i _ b, p => .instanceMethod i p b
  | .collector cn i _ t ch, p => .collector cn i p t ch
  | .moduleFunction i _ t its, p => .moduleFunction i p t its
  | .bare i _, p => .bare i p

/-- Whether singledispatch classifies the node as a `Collector`. -/
def isCollector : PNode → Bool
  | .collector _ _ _ _ _ => true
  | .moduleFunction _ _ _ _ => true
  | _ => false

/-- Whether singledispatch classifies the node as a `Provider`. -/
def isProvider : PNode → Bool
  | .provider _ _ _ _ => true
  | .instanceMethod _ _ _ => true
  | _ => false

/-- Python dict assignment `d[k] = v`: replace in place if the key is
present, else append, preserving insertion order. -/
def dictSet : PEntries → String → PValue → PEntries
  | .nil, k, v => .cons k v .nil
  | .cons k2 v2 es, k, v =>
    if k2 = k then .cons k2 v es else .cons k2 v2 (dictSet es k v)

/-- Python dict lookup `d.get(k)`. -/
def dictLookup : PEntries → String → Option PValue
  | .nil, _ => none
  | .cons k2 v es, k => if k2 = k then some v else dictLookup es k

/-- Length of a `PValues` list. -/
def valuesLen : PValues → Nat
  | .nil => 0
  | .cons _ vs => 1 + valuesLen vs

/-- Python `str.lower()` on the ASCII class names used for key derivation. -/
def pyLower (s : String) : String := String.mk (s.data.map Char.toLower)

/-- The `[target]` suffix appended by `get_default_id` for collectors:
present exactly when `_target` is truthy (neither `None` nor the empty
string), mirroring `if c._target:` (src line 314). -/
def targetSuffix : Option String → String
  | none => ""
  | some t => if t = "" then "" else "[" ++ t ++ "]"

/-- The singledispatch `get_default_id` (src lines 301-316): providers use
the lowercase class name, collectors additionally append `[target]`, and an
object registered with neither branch raises `TypeError`. -/
def get_default_id : PNode → Except PyE String
  | .provider cn _ _ _ => .ok (pyLower cn)
  | .instanceMethod _ _ _ => .ok (pyLower "InstanceMethod")
  | .collector cn _ _ t _ => .ok (pyLower cn ++ targetSuffix t)
  | .moduleFunction _ _ t _ => .ok (pyLower "ModuleFunction" ++ targetSuffix t)
  | .bare _ _ => .error ("TypeError", "unregistered node type")

/-- `get_key` (src lines 294-298): the explicit `_id` when it is not
`None`, otherwise the type-derived default. -/
def get_key (n : PNode) : Except PyE String :=
  match nodeId n with
  | some i => .ok i
  | none => get_default_id n

/-- `get_key` applied to a value that may be `None` (as happens for the
`parent` argument of the generic `populate` branch): `getattr(None, "_id",
None)` is `None` and `get_default_id(None)` raises `TypeError`. -/
def get_keyOpt : Option PNode → Except PyE String
  | some n => get_key n
  | none => .error ("TypeError", "NoneType is not a registered node type")

/-- The `_get_full_name` helper (src lines 128-134): dotted join of the
present `__module__` and `__name__` parts. -/
def fullName (module? name? : Option String) : String :=
  String.intercalate "." (module?.toList ++ name?.toList)

/-- The `Function` constructor (src lines 137-144) as invoked through
`Function.from_parent`: when no id is given the id defaults to the
qualified callable name followed by parentheses. -/
def functionNew (module? name? : Option String) (body : Invocation)
    (id : Option String) (parent : Option PNode) : PNode :=
  .provider "Function" (some (id.getD (fullName module? name? ++ "()"))) parent body

/-- The `Value` constructor (src lines 113-119) as invoked through
`Value.from_parent`: a missing id is backfilled from `parent._id`, which
raises `AttributeError` when `parent` is `None`. -/
def valueNew (value : PValue) (id : Option String) (parent : Option PNode) :
    Except PyE PNode :=
  match id with
  | some _ => .ok (.provider "Value" id parent (.ok value))
  | none =>
    match parent with
    | none => .error ("AttributeError", "NoneType object has no attribute _id")
    | some p => .ok (.provider "Value" (nodeId p) parent (.ok value))

/-- The already-a-node branch of `get_collectable` (src lines 337-344):
backfill `_id` from the explicit id, backfill `_parent`, then fall back to
the parent id; reading `_id` of a still-missing parent raises
`AttributeError`. The node itself is returned (no copy). -/
def get_collectable_node (n : PNode) (id : Option String) (parent : Option PNode) :
    Except PyE PNode :=
  let n1 := match nodeId n with
    | none => setId n id
    | some _ => n
  let n2 := match nodeParent n1 with
    | none => setParent n1 parent
    | some _ => n1
  match nodeId n2 with
  | some _ => .ok n2
  | none =>
    match nodeParent n2 with
    | none => .error ("AttributeError", "NoneType object has no attribute _id")
    | some p => .ok (setId n2 (nodeId p))

/-- The body of `get_collectable` after the tuple unpacking (src lines
337-349): node as-is with backfill, then named callables wrapped as
`Function`, then everything else wrapped as a terminal `Value`. -/
def get_collectable_raw (obj : PValue) (parent : Option PNode) (id : Option String) :
    Except PyE PNode :=
  match obj with
  | .vnode n => get_collectable_node n id parent
  | .vcallable m (some nm) body => .ok (functionNew m (some nm) body id parent)
  | _ => valueNew obj id parent

/-- `get_collectable` (src lines 332-349): a 2-tuple whose first element is
a string is unpacked once into `(id, obj)` by the initial `if` statement,
and processing continues with the remaining rules; there is no recursion,
so the pair rule is not applied again to the unpacked value. -/
def get_collectable (obj : PValue) (parent : Option PNode) (id : Option String) :
    Except PyE PNode :=
  match obj with
  | .vtuple (.cons (.vstr s) (.cons w .nil)) => get_collectable_raw w parent (some s)
  | _ => get_collectable_raw obj parent id

/-- Modelled from the spec: section 4.2 rule 1 read as the claim C5 states
it, with the pair rule recursing on the inner value so that nested pairs
are unwrapped repeatedly. This definition follows the claim wording, not
the source, and exists only to be compared with `get_collectable`. -/
def get_collectable_spec (obj : PValue) (parent : Option PNode) (id : Option String) :
    Except PyE PNode :=
  match obj with
  | .vtuple (.cons (.vstr s) (.cons w .nil)) => get_collectable_spec w parent (some s)
  | _ => get_collectable_raw obj parent id

/-- Evaluation of an `Invocation`. -/
def invoke : Invocation → Except PyE PValue
  | .ok v => .ok v
  | .raises c m => .error (c, m)

/-- The `__call__` of a provider node. A generic provider returns its
stored result (or raises); `InstanceMethod.__call__` (src lines 109-110)
additionally passes the raw method result through `get_collectable` with
itself as parent, so any normalization error also surfaces as an exception
of the call. Non-providers are not callable. -/
def callProvider : PNode → Except PyE PValue
  | .provider _ _ _ body => invoke body
  | .instanceMethod i p mr =>
    match invoke mr with
    | .error e => .error e
    | .ok v =>
      match get_collectable v (some (.instanceMethod i p mr)) none with
      | .error e => .error e
      | .ok n => .ok (.vnode n)
  | _ => .error ("TypeError", "object is not callable")

/-- `get_collectable` mapped over the items yielded by a `ModuleFunction`
wrapped function, with the `ModuleFunction` node itself as parent
(src lines 324-329). -/
def mapGetCollectable (self : PNode) : PValues → Except PyE PValues
  | .nil => .ok .nil
  | .cons v vs =>
    match get_collectable v (some self) none with
    | .error e => .error e
    | .ok n =>
      match mapGetCollectable self vs with
      | .error e => .error e
      | .ok rest => .ok (.cons (.vnode n) rest)

/-- The `collect()` enumeration of a collector node: a generic collector
yields its child nodes (for the base `Collector` these are the
`InstanceAttribute` / `InstanceMethod` nodes built from its attributes,
src lines 81-88), while `ModuleFunction` normalizes each item produced by
its wrapped function. Non-collectors are not enumerable. -/
def collect : PNode → Except PyE PValues
  | .collector _ _ _ _ children => .ok children
  | .moduleFunction i p t items => mapGetCollectable (.moduleFunction i p t items) items
  | _ => .error ("TypeError", "object is not iterable")

/-- Sequential processing of collected children, each via the supplied
step (the recursive `populate` call of `_for_collector`, src lines
279-280), threading the nested mapping through; an uncaught error aborts
the fold. -/
def populateChildren (step : PValue → PEntries → Except PyE PEntries) :
    PValues → PEntries → Except PyE PEntries
  | .nil, data => .ok data
  | .cons v vs, data =>
    match step v data with
    | .error e => .error e
    | .ok data2 => populateChildren step vs data2

/-- The population engine for a caller-supplied dict (src lines 265-291),
dispatched like the singledispatch `populate`: the `_for_collector` branch
resolves the key, enumerates children into a fresh nested mapping and
stores it at the key; the `_for_provider` branch resolves the key, invokes
the provider, records `{"error": e}` at the key if the call raised, and
otherwise recurses on the result with the provider as parent; the generic
branch stores the value at the key resolved from the parent. Fuel bounds
the recursion depth; every recursive call consumes one unit. -/
def populateD : Nat → PValue → PEntries → Option PNode → Except PyE PEntries
  | 0, _, _, _ => .error ("Fuel", "out of fuel")
  | fuel + 1, v, data, parent =>
    match v with
    | .vnode n =>
      if isCollector n then
        match get_key n with
        | .error e => .error e
        | .ok key =>
          match collect n with
          | .error e => .error e
          | .ok children =>
            match populateChildren (fun w dd => populateD fuel w dd parent) children .nil with
            | .error e => .error e
            | .ok sub => .ok (dictSet data key (.vdict sub))
      else if isProvider n then
        match get_key n with
        | .error e => .error e
        | .ok key =>
          match callProvider n with
          | .error (c, m) => .ok (dictSet data key (.vdict (.cons "error" (.vexc c m) .nil)))
          | .ok res => populateD fuel res data (some n)
      else
        match get_keyOpt parent with
        | .error e => .error e
        | .ok key => .ok (dictSet data key v)
    | _ =>
      match get_keyOpt parent with
      | .error e => .error e
      | .ok key => .ok (dictSet data key v)

/-- The population engine when `data` is `None`: only `_for_collector`
tolerates this (it creates a fresh local dict, populates it, and the
result is unreachable for the caller); the `_for_provider` error branch
and the generic branch would assign into `None` and raise `TypeError`,
after the key has been resolved. A provider whose call succeeds recurses
with `data` still `None`. -/
def populateNone : Nat → PValue → Option PNode → Except PyE Unit
  | 0, _, _ => .error ("Fuel", "out of fuel")
  | fuel + 1, v, parent =>
    match v with
    | .vnode n =>
      if isCollector n then
        match populateD (fuel + 1) v .nil parent with
        | .error e => .error e
        | .ok _ => .ok ()
      else if isProvider n then
        match get_key n with
        | .error e => .error e
        | .ok _ =>
          match callProvider n with
          | .error _ => .error ("TypeError", "NoneType object does not support item assignment")
          | .ok res => populateNone fuel res (some n)
      else
        match get_keyOpt parent with
        | .error e => .error e
        | .ok _ => .error ("TypeError", "NoneType object does not support item assignment")
    | _ =>
      match get_keyOpt parent with
      | .error e => .error e
      | .ok _ => .error ("TypeError", "NoneType object does not support item assignment")

/-- The full `populate` entry point. Python `populate` always returns
`None`; what a caller can observe is the final contents of the mapping it
passed in, which this model returns: `none` when the caller passed
`data=None` (nothing the caller holds is written), `some` of the updated
mapping otherwise. -/
def populate (fuel : Nat) (v : PValue) (data : Option PEntries) (parent : Option PNode) :
    Except PyE (Option PEntries) :=
  match data with
  | some d =>
    match populateD fuel v d parent with
    | .error e => .error e
    | .ok d2 => .ok (some d2)
  | none =>
    match populateNone fuel v parent with
    | .error e => .error e
    | .ok _ => .ok none

/-- The `repr` of a Python exception built from one string argument. -/
def pyExcRepr (cls msg : String) : String := cls ++ "(\x27" ++ msg ++ "\x27)"

/-- The fallback converter `_to_jsonable` (src lines 658-669) under
Python >= 3.9: exceptions render as `repr`, datetimes as `isoformat`,
path-likes as `os.fspath`; for every other value the check
`isinstance(obj, NamedTuple)` raises `TypeError`, because
`typing.NamedTuple` is a function there, not a type, so the
namedtuple / set / tuple / `str` fallback branches below it never run.
Every non-raising branch returns a string. -/
def _to_jsonable : PValue → Except PyE String
  | .vexc c m => .ok (pyExcRepr c m)
  | .vdatetime iso => .ok iso
  | .vpath p => .ok p
  | _ => .error ("TypeError", "isinstance() arg 2 must be a type, a tuple of types, or a union")

/-- A JSON document as produced by `json.dumps`. -/
inductive Json : Type where
  | jnull : Json
  | jbool : Bool → Json
  | jint : Int → Json
  | jstr : String → Json
  | jarr : List Json → Json
  | jobj : List (String × Json) → Json

mutual

/-- `json.dumps(-, default=_to_jsonable)` semantics over the model values:
`None`, booleans, numbers, strings, lists, tuples and dicts serialize
natively; any other value is passed to the `default` fallback and the
resulting string is emitted. An exception escaping the fallback aborts the
rendering. -/
def json_dumps : PValue → Except PyE Json
  | .vnone => .ok .jnull
  | .vbool b => .ok (.jbool b)
  | .vint n => .ok (.jint n)
  | .vstr s => .ok (.jstr s)
  | .vlist xs =>
    match json_dumpsList xs with
    | .error e => .error e
    | .ok js => .ok (.jarr js)
  | .vtuple xs =>
    match json_dumpsList xs with
    | .error e => .error e
    | .ok js => .ok (.jarr js)
  | .vdict es =>
    match json_dumpsEntries es with
    | .error e => .error e
    | .ok fs => .ok (.jobj fs)
  | v =>
    match _to_jsonable v with
    | .error e => .error e
    | .ok s => .ok (.jstr s)

/-- Elementwise rendering of a value list. -/
def json_dumpsList : PValues → Except PyE (List Json)
  | .nil => .ok []
  | .cons v vs =>
    match json_dumps v with
    | .error e => .error e
    | .ok j =>
      match json_dumpsList vs with
      | .error e => .error e
      | .ok js => .ok (j :: js)

/-- Entrywise rendering of a dict. -/
def json_dumpsEntries : PEntries → Except PyE (List (String × Json))
  | .nil => .ok []
  | .cons k v es =>
    match json_dumps v with
    | .error e => .error e
    | .ok j =>
      match json_dumpsEntries es with
      | .error e => .error e
      | .ok fs => .ok ((k, j) :: fs)

end

mutual

/-- Total number of keys of a mapping, nested mappings included. -/
def totalKeys : PEntries → Nat
  | .nil => 0
  | .cons _ v es => 1 + nestedKeys v + totalKeys es

/-- Keys contributed by a value: those of a nested mapping. -/
def nestedKeys : PValue → Nat
  | .vdict es => totalKeys es
  | .vnone => 0
  | .vbool _ => 0
  | .vint _ => 0
  | .vstr _ => 0
  | .vtuple _ => 0
  | .vlist _ => 0
  | .vset _ => 0
  | .vexc _ _ => 0
  | .vdatetime _ => 0
  | .vpath _ => 0
  | .vcallable _ _ _ => 0
  | .vnode _ => 0

end

/-- Sum, over the node-valued elements of an enumeration, of a per-node
count. -/
def sumNodes (count : PNode → Except PyE Nat) : PValues → Except PyE Nat
  | .nil => .ok 0
  | .cons (.vnode n) vs =>
    match count n with
    | .error e => .error e
    | .ok a =>
      match sumNodes count vs with
      | .error e => .error e
      | .ok b => .ok (a + b)
  | .cons _ vs => sumNodes count vs

/-- Number of collectors and providers reachable by enumeration from a
node: the node itself, plus, for a collector, the reachable nodes of every
child its `collect()` yields. -/
def reachableCount : Nat → PNode → Except PyE Nat
  | 0, _ => .error ("Fuel", "out of fuel")
  | fuel + 1, n =>
    if isCollector n then
      match collect n with
      | .error e => .error e
      | .ok children =>
        match sumNodes (fun m => reachableCount fuel m) children with
        | .error e => .error e
        | .ok s => .ok (1 + s)
    else .ok 1

end Getinfo

namespace Getinfo

/-! Shared helper lemmas. -/

/-- Looking up a key just assigned returns the assigned value. -/
theorem dictLookup_dictSet : ∀ (d : PEntries) (k : String) (v : PValue),
    dictLookup (dictSet d k v) k = some v
  | .nil, k, v => by simp [dictSet, dictLookup]
  | .cons k2 w es, k, v => by
    by_cases h : k2 = k
    · simp [dictSet, dictLookup, h]
    · simp [dictSet, dictLookup, h, dictLookup_dictSet es k v]

/-- A second assignment to the same key overwrites the first in place. -/
theorem dictSet_dictSet : ∀ (d : PEntries) (k : String) (v1 v2 : PValue),
    dictSet (dictSet d k v1) k v2 = dictSet d k v2
  | .nil, k, v1, v2 => by simp [dictSet]
  | .cons k2 w es, k, v1, v2 => by
    by_cases h : k2 = k
    · simp [dictSet, h]
    · simp [dictSet, h, dictSet_dictSet es k v1 v2]

/-- A provider node is never classified as a collector. -/
theorem isProvider_not_isCollector (n : PNode) (h : isProvider n = true) :
    isCollector n = false := by
  cases n <;> simp_all [isProvider, isCollector]

end Getinfo

namespace Getinfo

/-- C1: the claim states that the fallback converter `_to_jsonable` is
total and never raises. Under Python >= 3.9 the check
`isinstance(obj, NamedTuple)` on src line 665 raises `TypeError` because
`typing.NamedTuple` is a function, not a type, so `_to_jsonable` raises
for every value that is not an exception, datetime, or path-like: here it
raises on a set, while an exception value still converts (the branches
before the broken check work), and a report containing a set value fails
to render. -/
theorem C1_to_jsonable_raises_on_set :
    _to_jsonable (.vset .nil)
      = .error ("TypeError", "isinstance() arg 2 must be a type, a tuple of types, or a union")
  ∧ _to_jsonable (.vexc "RuntimeError" "boom") = .ok "RuntimeError(\x27boom\x27)"
  ∧ json_dumps (.vdict (.cons "suffixes" (.vset .nil) .nil))
      = .error ("TypeError", "isinstance() arg 2 must be a type, a tuple of types, or a union") :=
  ⟨rfl, rfl, rfl⟩

/-- C2: a Producer whose invocation raises any exception has
`{resolved_key: {"error": e}}` recorded at its single resolved key in the
current mapping, the populate call returns normally (the error does not
propagate), and the children fold continues with the remaining siblings on
the updated mapping. -/
theorem C2_provider_error_contained :
    (∀ fuel n d parent k c m, isProvider n = true → get_key n = .ok k →
        callProvider n = .error (c, m) →
        populateD (fuel + 1) (.vnode n) d parent
          = .ok (dictSet d k (.vdict (.cons "error" (.vexc c m) .nil))))
  ∧ (∀ fuel n vs d parent k c m, isProvider n = true → get_key n = .ok k →
        callProvider n = .error (c, m) →
        populateChildren (fun w dd => populateD (fuel + 1) w dd parent) (.cons (.vnode n) vs) d
          = populateChildren (fun w dd => populateD (fuel + 1) w dd parent) vs
              (dictSet d k (.vdict (.cons "error" (.vexc c m) .nil)))) := by
  have hmain : ∀ fuel n d parent k c m, isProvider n = true → get_key n = .ok k →
      callProvider n = .error (c, m) →
      populateD (fuel + 1) (.vnode n) d parent
        = .ok (dictSet d k (.vdict (.cons "error" (.vexc c m) .nil))) := by
    intro fuel n d parent k c m hp hk hc
    have hnc : isCollector n = false := isProvider_not_isCollector n hp
    simp [populateD, hnc, hp, hk, hc]
  refine ⟨hmain, ?_⟩
  intro fuel n vs d parent k c m hp hk hc
  simp [populateChildren, hmain fuel n d parent k c m hp hk hc]

/-- C2 witness: a concrete raising provider, in the shape of `PipList`
failing, records exactly its error leaf. -/
theorem C2_provider_error_contained_witness :
    populateD 1 (.vnode (.provider "PipList" (some "piplist") none
        (.raises "CalledProcessError" "pip list failed"))) .nil none
      = .ok (dictSet .nil "piplist"
          (.vdict (.cons "error" (.vexc "CalledProcessError" "pip list failed") .nil))) :=
  C2_provider_error_contained.1 0
    (.provider "PipList" (some "piplist") none (.raises "CalledProcessError" "pip list failed"))
    .nil none "piplist" "CalledProcessError" "pip list failed" rfl rfl rfl

def c3_bad : PNode := .provider "Probe" (some "bad") none (.raises "RuntimeError" "boom")

def c3_good : PNode := .provider "Probe" (some "good") none (.ok (.vint 42))

def c3_root : PNode :=
  .collector "Collector" (some "root") none none
    (.cons (.vnode c3_bad) (.cons (.vnode c3_good) .nil))

/-- C3 counterexample: a Producer raising a runtime error with message
boom, populated next to a healthy sibling, renders as the repr string
RuntimeError(\x27boom\x27), not as the bare message the claim states; the
sibling is unaffected. -/
theorem C3_counterexample :
    populate 3 (.vnode c3_root) (some .nil) none
      = .ok (some (.cons "root" (.vdict
          (.cons "bad" (.vdict (.cons "error" (.vexc "RuntimeError" "boom") .nil))
            (.cons "good" (.vint 42) .nil))) .nil))
  ∧ json_dumps (.vdict (.cons "error" (.vexc "RuntimeError" "boom") .nil))
      = .ok (.jobj [("error", .jstr "RuntimeError(\x27boom\x27)")])
  ∧ "RuntimeError(\x27boom\x27)" ≠ "boom" :=
  ⟨rfl, rfl, by decide⟩

/-- C3 amended: a Producer raising a runtime error with message boom maps
its resolved key to an error leaf that renders as the repr of the
exception, RuntimeError(\x27boom\x27), and the children fold continues
with the remaining siblings on the updated mapping, so other Producers in
the same Collector are unaffected. -/
theorem C3_error_leaf_renders_repr :
    ∀ fuel cn k p0 d parent vs,
      (populateD (fuel + 1) (.vnode (.provider cn (some k) p0 (.raises "RuntimeError" "boom"))) d parent
        = .ok (dictSet d k (.vdict (.cons "error" (.vexc "RuntimeError" "boom") .nil))))
    ∧ (json_dumps (.vdict (.cons "error" (.vexc "RuntimeError" "boom") .nil))
        = .ok (.jobj [("error", .jstr "RuntimeError(\x27boom\x27)")]))
    ∧ (populateChildren (fun w dd => populateD (fuel + 1) w dd parent)
          (.cons (.vnode (.provider cn (some k) p0 (.raises "RuntimeError" "boom"))) vs) d
        = populateChildren (fun w dd => populateD (fuel + 1) w dd parent) vs
            (dictSet d k (.vdict (.cons "error" (.vexc "RuntimeError" "boom") .nil)))) := by
  intro fuel cn k p0 d parent vs
  refine ⟨rfl, rfl, ?_⟩
  simp [populateChildren, populateD, isCollector, isProvider, get_key, nodeId, callProvider, invoke]

end Getinfo

namespace Getinfo

def c4_dup_tree : PNode :=
  .moduleFunction none none (some "meta")
    (.cons (.vtuple (.cons (.vstr "dup") (.cons (.vint 1) .nil)))
      (.cons (.vtuple (.cons (.vstr "dup") (.cons (.vint 2) .nil))) .nil))

/-- C4 counterexample: the claim quantifies over all probe trees, but the
engine does nothing to keep sibling resolved keys distinct. This tree uses
the yielding style of the module functions (src lines 377-379): a
`ModuleFunction` whose wrapped function yields two tagged pairs, here both
tagged with the same id dup. Enumeration reaches 3 collectors and
producers, yet the populated output has only 2 keys in total: the second
probe silently overwrites its sibling, whose value 1 is gone from the
mapping. -/
theorem C4_counterexample :
    populate 3 (.vnode c4_dup_tree) (some .nil) none
      = .ok (some (.cons "modulefunction[meta]"
          (.vdict (.cons "dup" (.vint 2) .nil)) .nil))
  ∧ reachableCount 3 c4_dup_tree = .ok 3
  ∧ totalKeys (.cons "modulefunction[meta]"
      (.vdict (.cons "dup" (.vint 2) .nil)) .nil) = 2
  ∧ (2 : Nat) ≠ 3 :=
  ⟨rfl, rfl, rfl, by decide⟩

/-- C4 amended: every successfully populated element contributes exactly
one key write to the mapping it is populated into, and a second write to
the same resolved key overwrites the first in place, so the number of keys
equals the number of reachable probes only when the written keys are
distinct and fresh; sibling probes whose resolved keys collide are masked
(last write wins) and the output has fewer keys. -/
theorem C4_single_write_last_wins :
    (∀ d k v1 v2, dictSet (dictSet d k v1) k v2 = dictSet d k v2)
  ∧ (∀ fuel v d parent d2, populateD fuel v d parent = .ok d2 →
      ∃ k w, d2 = dictSet d k w) := by
  refine ⟨fun d k v1 v2 => dictSet_dictSet d k v1 v2, ?_⟩
  intro fuel
  induction fuel with
  | zero => intro v d parent d2 h; simp [populateD] at h
  | succ f ih =>
    intro v d parent d2 h
    simp only [populateD] at h
    split at h
    · -- the vnode case of the dispatch
      split at h
      · -- collector branch
        split at h
        · simp at h
        · split at h
          · simp at h
          · split at h
            · simp at h
            · simp only [Except.ok.injEq] at h
              exact ⟨_, _, h.symm⟩
      · split at h
        · -- provider branch
          split at h
          · simp at h
          · split at h
            · simp only [Except.ok.injEq] at h
              exact ⟨_, _, h.symm⟩
            · exact ih _ _ _ _ h
        · -- generic branch on a bare node
          split at h
          · simp at h
          · simp only [Except.ok.injEq] at h
            exact ⟨_, _, h.symm⟩
    · -- generic branch on a non-node value
      split at h
      · simp at h
      · simp only [Except.ok.injEq] at h
        exact ⟨_, _, h.symm⟩

/-- C4 amended witness: a concrete scalar population is a single dict
write. -/
theorem C4_single_write_last_wins_witness :
    ∃ k w, (PEntries.cons "x" (.vint 1) .nil) = dictSet .nil k w :=
  C4_single_write_last_wins.2 1 (.vint 1) .nil
    (some (.provider "Probe" (some "x") none (.ok .vnone)))
    (.cons "x" (.vint 1) .nil) rfl

end Getinfo

namespace Getinfo

def c5_parent : PNode := .provider "Probe" (some "par") none (.ok .vnone)

def c5_nested : PValue :=
  .vtuple (.cons (.vstr "a")
    (.cons (.vtuple (.cons (.vstr "b") (.cons (.vint 1) .nil))) .nil))

/-- C5 counterexample: on the nested pair `("a", ("b", 1))` the source
`get_collectable` unpacks only once and wraps the whole inner pair as a
terminal Value with id a, whereas the recursive unpacking the claim
describes (`get_collectable_spec`) would recurse and produce a Value
wrapping `1` with id b; the two resolved ids differ. -/
theorem C5_counterexample :
    (get_collectable c5_nested (some c5_parent) none).map nodeId = .ok (some "a")
  ∧ (get_collectable c5_nested (some c5_parent) none).map callProvider
      = .ok (.ok (.vtuple (.cons (.vstr "b") (.cons (.vint 1) .nil))))
  ∧ (get_collectable_spec c5_nested (some c5_parent) none).map nodeId = .ok (some "b")
  ∧ (get_collectable_spec c5_nested (some c5_parent) none).map callProvider = .ok (.ok (.vint 1))
  ∧ (some "a" : Option String) ≠ some "b" :=
  ⟨rfl, rfl, rfl, rfl, by decide⟩

/-- C5 amended: a 2-element pair whose first element is a string is
unpacked exactly once; the remaining normalization rules are applied to
the inner value with the unpacked id as the explicit id, and the pair rule
is not applied again, so an inner value that is itself such a pair is
wrapped whole as a terminal Value carrying the outer id. -/
theorem C5_pair_unpacked_once :
    (∀ s w parent id0,
      get_collectable (.vtuple (.cons (.vstr s) (.cons w .nil))) parent id0
        = get_collectable_raw w parent (some s))
  ∧ (∀ s s2 w2 parent id0,
      get_collectable (.vtuple (.cons (.vstr s)
          (.cons (.vtuple (.cons (.vstr s2) (.cons w2 .nil))) .nil))) parent id0
        = .ok (.provider "Value" (some s) parent
            (.ok (.vtuple (.cons (.vstr s2) (.cons w2 .nil)))))) :=
  ⟨fun _ _ _ _ => rfl, fun _ _ _ _ _ => rfl⟩

def c6_value_provider : PNode :=
  .provider "Value" (some "x") none
    (.ok (.vtuple (.cons (.vstr "custom_id") (.cons (.vstr "value") .nil))))

/-- C6 counterexample: a `Value` Producer whose invocation returns the
pair `("custom_id", "value")` does not yield the key custom_id: because
`_for_provider` populates the raw result without normalizing it, the whole
pair is stored at the key x derived from the Producer itself, and the key
custom_id is absent from the mapping. -/
theorem C6_counterexample :
    populate 2 (.vnode c6_value_provider) (some .nil) none
      = .ok (some (.cons "x"
          (.vtuple (.cons (.vstr "custom_id") (.cons (.vstr "value") .nil))) .nil))
  ∧ dictLookup (.cons "x"
      (.vtuple (.cons (.vstr "custom_id") (.cons (.vstr "value") .nil))) .nil) "custom_id"
      = none :=
  ⟨rfl, rfl⟩

/-- C6 amended: the override happens for Producers whose invocation itself
normalizes the result through `get_collectable`, which is how
`InstanceMethod` probes work: an InstanceMethod whose method returns the
pair `("custom_id", "value")` writes exactly `custom_id` mapped to value
into the mapping, whatever its own id is, and writes nothing at its own
default-derived key; a Producer whose call returns the raw pair stores
the pair at its own key instead. -/
theorem C6_instancemethod_pair_overrides :
    ∀ fuel id0 p0 d parent,
      populateD (fuel + 3) (.vnode (.instanceMethod id0 p0
          (.ok (.vtuple (.cons (.vstr "custom_id") (.cons (.vstr "value") .nil)))))) d parent
        = .ok (dictSet d "custom_id" (.vstr "value")) := by
  intro fuel id0 p0 d parent
  cases id0 with
  | none => rfl
  | some s => rfl

end Getinfo

namespace Getinfo

/-- C7: `get_key` returns an explicit identifier verbatim whenever one is
set; with no explicit identifier a Producer gets the lowercase name of its
concrete kind, a Collector gets the lowercase kind name with the target in
square brackets appended exactly when the target is non-empty, and a node
registered with neither derivation rule raises a type error. -/
theorem C7_get_key_rules :
    (∀ n s, nodeId n = some s → get_key n = .ok s)
  ∧ (∀ cn p b, get_key (.provider cn none p b) = .ok (pyLower cn))
  ∧ (∀ p b, get_key (.instanceMethod none p b) = .ok "instancemethod")
  ∧ (∀ cn p t ch, get_key (.collector cn none p t ch) = .ok (pyLower cn ++ targetSuffix t))
  ∧ (targetSuffix none = "" ∧ targetSuffix (some "") = ""
      ∧ ∀ t, t ≠ "" → targetSuffix (some t) = "[" ++ t ++ "]")
  ∧ (∀ p, get_key (.bare none p) = .error ("TypeError", "unregistered node type")) := by
  refine ⟨?_, fun cn p b => rfl, fun p b => rfl, fun cn p t ch => rfl,
    ⟨rfl, rfl, fun t ht => by simp [targetSuffix, ht]⟩, fun p => rfl⟩
  intro n s h
  simp [get_key, h]

/-- C7 witness: an explicit id is returned verbatim and a non-empty target
produces the bracketed suffix. -/
theorem C7_get_key_rules_witness :
    get_key (.provider "PipList" (some "pips") none (.ok .vnone)) = .ok "pips"
  ∧ targetSuffix (some "pip show idaes-pse") = "[pip show idaes-pse]" :=
  ⟨C7_get_key_rules.1 _ "pips" rfl,
    C7_get_key_rules.2.2.2.2.1.2.2 "pip show idaes-pse" (by decide)⟩

/-- C8: normalizing a value that is already a node with both its id and
its parent set is a no-op: `get_collectable` returns the node itself with
no field modified, for any parent and explicit id arguments. -/
theorem C8_normalize_noop :
    ∀ n i p parent id0, nodeId n = some i → nodeParent n = some p →
      get_collectable (.vnode n) parent id0 = .ok n := by
  intro n i p parent id0 hi hp
  simp [get_collectable, get_collectable_raw, get_collectable_node, hi, hp]

/-- C8 witness: a fully identified node passes through normalization
unchanged even when a different explicit id and parent are supplied. -/
theorem C8_normalize_noop_witness :
    get_collectable
        (.vnode (.provider "Environ" (some "os.environ[CONDA_*]")
          (some (.bare none none)) (.ok .vnone)))
        (some (.bare (some "q") none)) (some "zz")
      = .ok (.provider "Environ" (some "os.environ[CONDA_*]")
          (some (.bare none none)) (.ok .vnone)) :=
  C8_normalize_noop _ "os.environ[CONDA_*]" (.bare none none) _ _ rfl rfl

/-- C9: every Collector successfully processed by `populateD` stores a
nested mapping (never a scalar) at its resolved key, and a Collector whose
enumeration yields no children stores exactly an empty nested mapping at
its key rather than leaving the key absent. -/
theorem C9_collector_writes_mapping :
    (∀ fuel n d parent d2, isCollector n = true →
        populateD fuel (.vnode n) d parent = .ok d2 →
        ∃ key sub, get_key n = .ok key ∧ dictLookup d2 key = some (.vdict sub))
  ∧ (∀ fuel cn id0 p0 t d parent, ∃ key,
        get_key (.collector cn id0 p0 t .nil) = .ok key
      ∧ populateD (fuel + 1) (.vnode (.collector cn id0 p0 t .nil)) d parent
          = .ok (dictSet d key (.vdict .nil))) := by
  constructor
  · intro fuel n d parent d2 hc h
    cases fuel with
    | zero => simp [populateD] at h
    | succ f =>
      simp only [populateD, hc, if_true] at h
      split at h
      · simp at h
      · split at h
        · simp at h
        · split at h
          · simp at h
          · simp only [Except.ok.injEq] at h
            subst h
            exact ⟨_, _, by assumption, dictLookup_dictSet d _ _⟩
  · intro fuel cn id0 p0 t d parent
    cases id0 with
    | none => exact ⟨pyLower cn ++ targetSuffix t, rfl, rfl⟩
    | some s => exact ⟨s, rfl, rfl⟩

/-- C9 witness: an empty collector in the shape of `ActiveCondaEnv` with
an explicit id writes an empty nested mapping at its key. -/
theorem C9_collector_writes_mapping_witness :
    ∃ key sub, get_key (.collector "ActiveCondaEnv" (some "conda") none none .nil) = .ok key
      ∧ dictLookup (.cons "conda" (.vdict .nil) .nil) key = some (.vdict sub) :=
  C9_collector_writes_mapping.1 1 (.collector "ActiveCondaEnv" (some "conda") none none .nil)
    .nil none (.cons "conda" (.vdict .nil) .nil) rfl rfl

/-- C10: `populate` gives its caller back nothing when called with
`data=None` — on success the caller-visible result is always `none`, so
the fresh top-level mapping built for a root Collector is discarded and
its contents are unobservable — whereas a caller that supplies a mapping
always receives an updated mapping back, which is how `main` obtains the
collected data through the module-level `DATA` dict. -/
theorem C10_populate_returns_none :
    (∀ fuel v parent r, populate fuel v none parent = .ok r → r = none)
  ∧ (∀ fuel v d parent r, populate fuel v (some d) parent = .ok r →
      ∃ d2, r = some d2) := by
  constructor
  · intro fuel v parent r h
    simp only [populate] at h
    split at h
    · simp at h
    · simp only [Except.ok.injEq] at h
      exact h.symm
  · intro fuel v d parent r h
    simp only [populate] at h
    split at h
    · simp at h
    · simp only [Except.ok.injEq] at h
      exact ⟨_, h.symm⟩

/-- C10 witness: populating a root collector with no mapping yields
nothing for the caller, while the same collector populated into a
supplied empty mapping yields its entry. -/
theorem C10_populate_returns_none_witness :
    ((none : Option PEntries) = none)
  ∧ (∃ d2, (some (PEntries.cons "module[getinfo]" (.vdict .nil) .nil) : Option PEntries) = some d2) :=
  ⟨C10_populate_returns_none.1 1 (.vnode (.collector "Module" none none (some "getinfo") .nil))
      none none rfl,
    C10_populate_returns_none.2 1 (.vnode (.collector "Module" none none (some "getinfo") .nil))
      .nil none (some (.cons "module[getinfo]" (.vdict .nil) .nil)) rfl⟩

end Getinfo
